import Mathlib

/-!
Verification of the google-authentication starter app
(`starter-code/app/app.js`, `starter-code/app/models/user.js`).

The app wires Google OAuth2 login through passport: a Mongoose `User`
model with a nested `google` sub-document, a `GoogleStrategy` whose
verify callback does `User.findOrCreate({ googleId: profile.id }, ...)`,
verbatim session (de)serialization, and four routes
(`/auth/google`, `/auth/google/callback`, `/logout`, `/`).

We embed the data model and the handlers shallowly and prove the spec's
claims about them.  Mongoose semantics used by the embedding:

  * the schema in `models/user.js` declares exactly the paths
    `google.id`, `google.access_token`, `google.email`; schemas are
    strict by default, so a value supplied for the undeclared path
    `googleId` is dropped when a document is created/saved;
  * a `findOne` filter is passed to the database as written
    (`strictQuery` is off by default), so the filter
    `{ googleId: pid }` matches exactly the stored documents whose
    `googleId` field equals `pid`;
  * the `mongoose-findorcreate` plugin runs `findOne(conditions)` and,
    when nothing matches, creates a new document from `conditions`.
-/

namespace GoogleAuthApp

/-- The nested `google` sub-document of the user schema
(`models/user.js` lines 6-12): paths `id`, `access_token`, `email`,
all of type String and all optional (no defaults, not required). -/
structure GoogleSub where
  id : Option String
  access_token : Option String
  email : Option String
  deriving DecidableEq, Repr

/-- A stored `User` document.  `docId` stands for the Mongo `_id`;
`googleId` is the undeclared path used by the verify callback's filter.
Because the schema is strict, creation never populates it (it stays
`none` in every stored document), but we keep the field so that the
query's behaviour on it is modelled rather than assumed. -/
structure UserDoc where
  docId : Nat
  google : GoogleSub
  googleId : Option String
  deriving DecidableEq, Repr

/-- The `User` collection together with the next fresh `_id`. -/
structure DB where
  docs : List UserDoc
  nextId : Nat
  deriving DecidableEq, Repr

def DB.empty : DB := ⟨[], 0⟩

/-- The Google profile handed to the verify callback: the
provider-assigned subject identifier and the e-mail granted by the
`email` scope. -/
structure Profile where
  id : String
  email : Option String
  deriving DecidableEq, Repr

namespace User

/-- `findOne({ googleId: pid })`: the filter is sent as written, so it
matches the stored documents whose `googleId` field equals `pid`. -/
def findOneGoogleId (db : DB) (pid : String) : Option UserDoc :=
  db.docs.find? (fun d => d.googleId == some pid)

/-- Document creation from the conditions `{ googleId: pid }`.  The
schema (`models/user.js`) is strict and does not declare `googleId`,
so the value is dropped: the stored document has every schema path
unset and no `googleId` field. -/
def createFromCond (db : DB) (pid : String) : UserDoc × DB :=
  let d : UserDoc := { docId := db.nextId, google := ⟨none, none, none⟩, googleId := none }
  (d, { docs := db.docs ++ [d], nextId := db.nextId + 1 })

/-- `User.findOrCreate({ googleId: pid }, cb)` as installed by
`userSchema.plugin(findOrCreate)` (`models/user.js` line 14): find one
document matching the conditions, else create one from them.  The
callback pair is `(err, user)`; no error arises in the pure model, so
the error component is `none`. -/
def findOrCreate (db : DB) (pid : String) :
    (Option String × UserDoc) × DB :=
  match findOneGoogleId db pid with
  | some d => ((none, d), db)
  | none =>
    let c := createFromCond db pid
    ((none, c.1), c.2)

end User

/-- The anonymous callback passed to `User.findOrCreate` inside the
verify function (`app.js` lines 54-56):
`function (err, user) { return done(err, user); }`.
`done` is modelled as returning the pair it receives, so the value of
this function is exactly what `done` receives. -/
def innerCallback (err : Option String) (user : Option UserDoc) :
    Option String × Option UserDoc :=
  (err, user)

/-- The GoogleStrategy verify callback (`app.js` lines 53-57): it runs
`User.findOrCreate({ googleId: profile.id }, ...)` and hands the
resulting `(err, user)` pair to `done` through `innerCallback`.  The
access token, refresh token and profile e-mail are received but never
used. -/
def verifyCallback (accessToken refreshToken : String) (profile : Profile)
    (db : DB) : (Option String × Option UserDoc) × DB :=
  let r := User.findOrCreate db profile.id
  (innerCallback r.1.1 (some r.1.2), r.2)

/-- `passport.serializeUser((user, done) => { done(null, user); })`
(`app.js` lines 30-32): the whole user object is stored, with a `null`
error.  The result is the pair `done` receives. -/
def serializeUser (user : α) : Option String × α :=
  (none, user)

/-- `passport.deserializeUser((user, done) => { done(null, user); })`
(`app.js` lines 33-35): the stored value is returned verbatim, with a
`null` error.  The result is the pair `done` receives. -/
def deserializeUser (user : α) : Option String × α :=
  (none, user)

/-- `passport.session()` restoring `req.user` on a request: the value
stored in the session (if any) is fed to `deserializeUser`.  The
collection `db` is passed in only to show it is not consulted. -/
def restoreSessionUser (db : DB) (sess : Option UserDoc) : Option UserDoc :=
  match sess with
  | none => none
  | some u => some (deserializeUser u).2

/-- An incoming HTTP request, carrying the session user (if any). -/
structure Request where
  user : Option UserDoc
  deriving DecidableEq, Repr

/-- The responses the app's handlers can produce. -/
inductive Response where
  /-- `res.redirect(location)`. -/
  | redirect (location : String)
  /-- The strategy's first step: redirect to the provider's consent
  screen requesting the given scope. -/
  | redirectToProvider (scope : String)
  /-- `res.render('layout', { user })`. -/
  | renderLayout (user : Option UserDoc)
  deriving DecidableEq, Repr

/-- What handling a request produced: a normal response together with
the session user afterwards, or an uncaught runtime error. -/
inductive HandlerResult where
  | ok (resp : Response) (sessionUser : Option UserDoc)
  | runtimeError (msg : String)
  deriving DecidableEq, Repr

/-- `app.get('/auth/google', passport.authenticate('google',
{ scope: 'email' }))` (`app.js` lines 65-66 and 139): the handler is
the strategy's first step, which redirects to the provider's consent
screen with the configured scope and touches neither the collection
nor the session. -/
def authGoogleHandler (db : DB) (req : Request) :
    HandlerResult × DB :=
  (.ok (.redirectToProvider "email") req.user, db)

/-- The outcome of the provider's callback as decided by the strategy:
either a verified user or a failure. -/
inductive AuthOutcome where
  | success (user : UserDoc)
  | failure
  deriving DecidableEq, Repr

/-- `app.get('/auth/google/callback', passport.authenticate('google',
{ successRedirect: '/', failureRedirect: '/' }))` (`app.js` lines
73-74 and 142-144): on success the session user is established and the
browser is sent to `successRedirect`; on failure it is sent to
`failureRedirect`.  Both options are the literal `'/'`. -/
def googleCallbackHandler : AuthOutcome → HandlerResult
  | .success u => .ok (.redirect "/") (some u)
  | .failure => .ok (.redirect "/") none

/-- The first `/logout` handler (`app.js` lines 77-80):
`app.get('/logout', () => { req.logout(); res.redirect('/') })`.
The arrow function binds no parameters, so the identifiers `req` and
`res` in its body have no binding in scope; evaluating `req.logout()`
throws a `ReferenceError`. -/
def logoutHandlerV1 (_req : Request) : HandlerResult :=
  .runtimeError "ReferenceError: req is not defined"

/-- The second `/logout` handler (`app.js` lines 147-150):
`app.get("/logout", function(req, res){ req.logout();
res.redirect("/") })`.  `req.logout()` removes the login session's
user and the browser is redirected to `/`. -/
def logoutHandlerV2 (_req : Request) : HandlerResult :=
  .ok (.redirect "/") none

/-- `app.get('/', function(req, res){ res.render('layout',
{ user: req.user }); })` (`app.js` lines 83-85 and 153-155): render
the single `layout` template with the one input `req.user`. -/
def homeHandler (req : Request) : HandlerResult :=
  .ok (.renderLayout req.user) req.user

/-- What the rendered home page shows. -/
inductive ViewOutput where
  | loggedOutView
  | loggedInView (user : UserDoc)
  deriving DecidableEq, Repr

/-- Modelled from the spec: the `layout` view itself is not under
`starter-code/app` (no `views/` directory is present); per §4.3 it
branches solely on the truthiness of its `user` input, showing a
logout link and the account payload when `user` is truthy and a login
link otherwise.  `undefined` is the only falsy value a session user
can be, so the branch is on the `Option`. -/
def layoutView : Option UserDoc → ViewOutput
  | none => .loggedOutView
  | some u => .loggedInView u

/-- One complete login for provider identity `pid`: the provider
callback succeeds and the verify callback runs against the current
collection, yielding the user handed to `done` and the new collection
state. -/
def login (db : DB) (pid : String) : Option UserDoc × DB :=
  let r := verifyCallback "tok" "ref" ⟨pid, some "e@x"⟩ db
  (r.1.2, r.2)

/-- C1: the spec's intended invariant — at most one User document per
Google identity across repeated logins — fails on the code.  This
theorem evaluates the code at the failing input: starting from an
empty collection, two successful OAuth callbacks with the same
`profile.id` leave two documents in the collection, because the
lookup filter `{ googleId: profile.id }` never matches the document
the first login stored (the strict schema dropped the `googleId`
path), so the second login creates a second document. -/
theorem c1_second_login_creates_second_document :
    ((login (login DB.empty "g1").2 "g1").2).docs.length = 2 := by
  decide

/-- C2: the claim that `GET /logout` clears the session and redirects
to `/` without failing at runtime is the intent, but the first
variant's handler is a zero-parameter arrow function whose body
references the unbound identifiers `req` and `res`, so every request
to it raises a runtime `ReferenceError` instead; the second variant
behaves as the claim says. -/
theorem c2_logout_v1_raises_runtime_error (req : Request) :
    logoutHandlerV1 req = .runtimeError "ReferenceError: req is not defined" ∧
    logoutHandlerV2 req = .ok (.redirect "/") none :=
  ⟨rfl, rfl⟩

/-- C3: session serialization is the verbatim identity round-trip —
`serializeUser` stores the whole object with no field projection and
`deserializeUser` returns exactly the stored object, so deserializing
what was serialized gives back the original object, for objects of
any shape. -/
theorem c3_serialize_deserialize_roundtrip {α : Type} (u : α) :
    (serializeUser u).2 = u ∧ (deserializeUser (serializeUser u).2).2 = u :=
  ⟨rfl, rfl⟩

/-- C4: whatever the outcome of authentication at
`GET /auth/google/callback`, the response is a redirect to `/` — the
success and failure branches target the identical location and no
distinct error response is ever produced. -/
theorem c4_callback_always_redirects_home (o : AuthOutcome) :
    ∃ s, googleCallbackHandler o = .ok (.redirect "/") s := by
  cases o <;> exact ⟨_, rfl⟩

/-- C5: the verify callback passes the `(err, user)` pair produced by
find-or-create to `done` unexamined and unmodified: the inner callback
hands `done` exactly the pair it received, and the verify callback's
`done` pair is exactly the error and user components returned by
`User.findOrCreate`, with no inspection, transformation or alternative
error path. -/
theorem c5_done_receives_findorcreate_pair (a r : String) (p : Profile)
    (db : DB) (err : Option String) (user : Option UserDoc) :
    innerCallback err user = (err, user) ∧
    (verifyCallback a r p db).1 =
      ((User.findOrCreate db p.id).1.1, some (User.findOrCreate db p.id).1.2) ∧
    (verifyCallback a r p db).2 = (User.findOrCreate db p.id).2 :=
  ⟨rfl, rfl, rfl⟩

/-- C6: `GET /` renders the single `layout` template with exactly one
input, the session user, and the view branches solely on the
truthiness of that input: the logged-out view (login link) when no
session user is present, the logged-in view (logout link and account
payload) otherwise. -/
theorem c6_home_renders_layout_on_user (req : Request) (u : UserDoc) :
    homeHandler req = .ok (.renderLayout req.user) req.user ∧
    layoutView none = .loggedOutView ∧
    layoutView (some u) = .loggedInView u :=
  ⟨rfl, rfl, rfl⟩

/-- C7 (counterexample): a subsequent login for the same identity is
not a pure read of the existing record — after a first login for
identity `g1` the second login for `g1` changes the collection (it
creates an additional document), so the claim's "only reads the
existing record via find-or-create" is false on the code. -/
theorem c7_second_login_is_not_a_read :
    (login (login DB.empty "g1").2 "g1").2 ≠ (login DB.empty "g1").2 := by
  decide

/-- C7 (amended): once a User document is in the collection, no
operation of this program ever updates or deletes it — any further
login leaves every existing document present and unchanged, so in
particular the stored access token is never refreshed or overwritten;
however, because of the lookup-key mismatch a subsequent login for the
same identity does not read the existing record but creates an
additional document. -/
theorem c7_existing_documents_never_updated_or_deleted
    (db : DB) (pid : String) (d : UserDoc) (h : d ∈ db.docs) :
    d ∈ (login db pid).2.docs := by
  unfold login verifyCallback User.findOrCreate
  cases hf : User.findOneGoogleId db pid with
  | some d' => simpa using h
  | none => simp [User.createFromCond]; exact Or.inl h

/-- Witness for C7 (amended): a concrete collection holding one
document, which is still present after a login. -/
theorem c7_witness :
    (⟨0, ⟨none, none, none⟩, none⟩ : UserDoc) ∈
      (login ⟨[⟨0, ⟨none, none, none⟩, none⟩], 1⟩ "g1").2.docs :=
  c7_existing_documents_never_updated_or_deleted
    ⟨[⟨0, ⟨none, none, none⟩, none⟩], 1⟩ "g1" _ (by simp)

/-- C8: the `GET /auth/google` handler only initiates the provider
redirect with the fixed scope `email`; it writes no User document,
establishes no session user, and changes no other application state. -/
theorem c8_auth_google_only_redirects (db : DB) (req : Request) :
    authGoogleHandler db req = (.ok (.redirectToProvider "email") req.user, db) :=
  rfl

/-- C9: `serializeUser` and `deserializeUser` never signal an error —
their completion callback always receives a `null` error — and
restoring the session user consults no collection: whatever user
object is stored in the session is accepted verbatim as the current
user on later requests, whatever the state of the User collection (so
a user deleted from the database remains logged in). -/
theorem c9_session_never_errs_never_revalidates {α : Type}
    (v : α) (u : UserDoc) (db : DB) :
    (serializeUser v).1 = none ∧ (deserializeUser v).1 = none ∧
    restoreSessionUser db (some u) = some u :=
  ⟨rfl, rfl, rfl⟩

/-- C10: the verify callback persists nothing from the Google
response — its result is unchanged under any change of access token,
refresh token and profile e-mail (only `profile.id` matters), and
every User document it creates has none of the schema's `google.id`,
`google.access_token` or `google.email` fields populated. -/
theorem c10_nothing_from_google_response_is_persisted
    (a r a' r' : String) (p p' : Profile) (db : DB) (h : p.id = p'.id) :
    verifyCallback a r p db = verifyCallback a' r' p' db ∧
    ∀ d ∈ (verifyCallback a r p db).2.docs, d ∉ db.docs →
      d.google = ⟨none, none, none⟩ := by
  constructor
  · simp [verifyCallback, h]
  · intro d hd hnot
    unfold verifyCallback User.findOrCreate at hd
    cases hf : User.findOneGoogleId db p.id with
    | some d' => rw [hf] at hd; exact absurd hd hnot
    | none =>
      rw [hf] at hd
      simp [User.createFromCond] at hd
      rcases hd with hd | hd
      · exact absurd hd hnot
      · rw [hd]

/-- Witness for C10: concrete distinct tokens and profile e-mails with
the same subject identifier. -/
theorem c10_witness :
    verifyCallback "t1" "r1" ⟨"g1", some "a@b"⟩ DB.empty =
      verifyCallback "t2" "r2" ⟨"g1", none⟩ DB.empty ∧
    ∀ d ∈ (verifyCallback "t1" "r1" ⟨"g1", some "a@b"⟩ DB.empty).2.docs,
      d ∉ DB.empty.docs → d.google = ⟨none, none, none⟩ :=
  c10_nothing_from_google_response_is_persisted
    "t1" "r1" "t2" "r2" ⟨"g1", some "a@b"⟩ ⟨"g1", none⟩ DB.empty rfl

end GoogleAuthApp
